import Mathlib

/-!
Shallow embedding of the schema drift detection engine of the repository
(`src/validators/column_drift_detector.py` and `src/validators/schema_validator.py`).

Modelling choices:
- A pandas DataFrame is modelled by the only data the detector reads from it:
  the ordered list of its columns, each a pair of the column name and the raw
  dtype descriptor string (`str(df[column].dtype)`).
- A Python `Dict[str, str]` (a schema) is modelled as an association list
  `List (String × String)`; dict keys are unique, which theorems assume via a
  `Nodup` hypothesis on the key list where it matters.
- Python truthiness of a list/dict is `!l.isEmpty`.
- `sorted(list(s))` over a set of strings is modelled by deduplicating and then
  insertion-sorting with the lexicographic order on strings.
- `raise ValidationError` is modelled by returning `Except.error`.
-/

namespace AutoETL

/-- `DriftSeverity` enum from `schema_validator.py` (INFO / WARNING / CRITICAL). -/
inductive DriftSeverity where
  | info
  | warning
  | critical
  deriving DecidableEq, Repr

/-- `DriftReport` dataclass from `schema_validator.py`.  `type_changes` maps a
column name to the pair (old type, new type); the Python dict is modelled as an
association list with unique keys. -/
structure DriftReport where
  table_name : String
  has_drift : Bool
  new_columns : List String
  removed_columns : List String
  type_changes : List (String × (String × String))
  severity : DriftSeverity
  message : String
  deriving DecidableEq, Repr

/-- `ValidationError` exception from `schema_validator.py`: carries a message
and an optional drift report. -/
structure ValidationError where
  message : String
  drift_report : Option DriftReport
  deriving DecidableEq, Repr

/-- Python's substring test `needle in hay` on the character lists. -/
def containsSub (needle : List Char) : List Char → Bool
  | [] => needle.isEmpty
  | c :: cs => needle.isPrefixOf (c :: cs) || containsSub needle cs

/-- Python's `needle in hay` for strings. -/
def strContains (hay needle : String) : Bool :=
  containsSub needle.data hay.data

/-- The `type_mapping` dict literal inside `ColumnDriftDetector._normalize_dtype`,
in its Python insertion (iteration) order. -/
def type_mapping : List (String × String) :=
  [("int64", "integer"),
   ("int32", "integer"),
   ("float64", "numeric"),
   ("float32", "numeric"),
   ("object", "text"),
   ("string", "text"),
   ("bool", "boolean"),
   ("datetime64[ns]", "timestamp"),
   ("datetime64", "timestamp"),
   ("date", "date")]

/-- `ColumnDriftDetector._normalize_dtype`: return the standard type of the
first `type_mapping` entry whose key is a substring of the dtype string,
else the dtype string itself. -/
def normalize_dtype (dtype_str : String) : String :=
  match type_mapping.find? (fun p => strContains dtype_str p.fst) with
  | some p => p.snd
  | none => dtype_str

/-- `ColumnDriftDetector.extract_schema`: map each column of the DataFrame to
the normalized dtype of that column. -/
def extract_schema (df : List (String × String)) : List (String × String) :=
  df.map (fun p => (p.fst, normalize_dtype p.snd))

/-- Computable lexicographic `≤` test on character lists (Python compares
strings lexicographically by code point). -/
def leChars : List Char → List Char → Bool
  | [], _ => true
  | _ :: _, [] => false
  | a :: as, b :: bs =>
    if a < b then true else if b < a then false else leChars as bs

/-- `leChars` decides the lexicographic order on character lists. -/
theorem leChars_eq_true_iff (as bs : List Char) : leChars as bs = true ↔ as ≤ bs := by
  rw [← not_lt]
  induction as generalizing bs with
  | nil =>
    exact iff_of_true rfl (List.Lex.not_nil_right _ _)
  | cons a as ih =>
    cases bs with
    | nil =>
      refine iff_of_false (by simp [leChars]) ?_
      intro h
      exact h (List.nil_lt_cons a as)
    | cons b bs =>
      rcases lt_trichotomy a b with hab | hab | hab
      · refine iff_of_true (by simp [leChars, hab]) ?_
        intro h
        cases h with
        | cons h => exact lt_irrefl _ hab
        | rel h => exact lt_asymm hab h
      · subst hab
        have hlhs : leChars (a :: as) (a :: bs) = leChars as bs := by
          simp [leChars]
        rw [hlhs]
        have hrhs : (a :: bs) < (a :: as) ↔ bs < as := List.Lex.cons_iff
        rw [hrhs]
        exact ih bs
      · refine iff_of_false (by simp [leChars, hab, lt_asymm hab]) ?_
        intro h
        exact h (List.Lex.rel hab)

/-- Computable lexicographic `≤` test on strings. -/
def strLeB (a b : String) : Bool := leChars a.toList b.toList

/-- `strLeB` decides `≤` on strings. -/
theorem strLeB_eq_true_iff (a b : String) : strLeB a b = true ↔ a ≤ b := by
  rw [String.le_iff_toList_le]
  exact leChars_eq_true_iff a.toList b.toList

/-- A `Decidable` instance for `≤` on strings that the kernel can evaluate
(the core instance is defined by well-founded recursion on byte iterators and
does not reduce). -/
instance decStrLe : DecidableRel (fun a b : String => a ≤ b) := fun a b =>
  decidable_of_iff (strLeB a b = true) (strLeB_eq_true_iff a b)

/-- Model of Python's `sorted` on a list of strings. -/
def sortStrings (l : List String) : List String :=
  List.insertionSort (fun a b => a ≤ b) l

/-- Model of Python's `sorted(list(setA - setB))` on string keys: keep the
elements of `as` not in `bs`, deduplicate (set semantics), and sort. -/
def setDiffSorted (as bs : List String) : List String :=
  sortStrings ((as.filter (fun a => !bs.contains a)).dedup)

/-- `ColumnDriftDetector._detect_new_columns`: `sorted(current_cols - expected_cols)`. -/
def detect_new_columns (current expected : List (String × String)) : List String :=
  setDiffSorted (current.map Prod.fst) (expected.map Prod.fst)

/-- `ColumnDriftDetector._detect_removed_columns`: `sorted(expected_cols - current_cols)`. -/
def detect_removed_columns (current expected : List (String × String)) : List String :=
  setDiffSorted (expected.map Prod.fst) (current.map Prod.fst)

/-- `ColumnDriftDetector._detect_type_changes`: for each column common to
`current` and `expected` whose types differ, record
`col ↦ (expected[col], current[col])`.  The Python loop over the key-set
intersection building a dict is modelled by filtering the entries of the
`current` dict (whose keys are unique). -/
def detect_type_changes : List (String × String) → List (String × String) →
    List (String × (String × String))
  | [], _ => []
  | (c, t) :: rest, expected =>
    match expected.lookup c with
    | some e =>
      if e ≠ t then (c, (e, t)) :: detect_type_changes rest expected
      else detect_type_changes rest expected
    | none => detect_type_changes rest expected

/-- `ColumnDriftDetector._determine_severity`: CRITICAL if columns were removed
or types changed, else WARNING if new columns, else INFO. -/
def determine_severity (new_columns removed_columns : List String)
    (type_changes : List (String × (String × String))) : DriftSeverity :=
  if !removed_columns.isEmpty || !type_changes.isEmpty then DriftSeverity.critical
  else if !new_columns.isEmpty then DriftSeverity.warning
  else DriftSeverity.info

/-- `ColumnDriftDetector._build_message`: join the non-empty drift clauses with
"; ", or the fixed no-drift message. -/
def build_message (new_columns removed_columns : List String)
    (type_changes : List (String × (String × String))) : String :=
  let msgs :=
    (if !new_columns.isEmpty then
       [toString new_columns.length ++ " new column(s) added"] else []) ++
    (if !removed_columns.isEmpty then
       [toString removed_columns.length ++ " column(s) removed"] else []) ++
    (if !type_changes.isEmpty then
       [toString type_changes.length ++ " type change(s) detected"] else [])
  if msgs.isEmpty then "Schema matches expected structure"
  else String.intercalate "; " msgs

/-- The report built by the `expected_schema is None` branch of
`ColumnDriftDetector.validate`. -/
def no_baseline_report (current_schema : List (String × String))
    (table_name : String) : DriftReport :=
  { table_name := table_name
    has_drift := false
    new_columns := current_schema.map Prod.fst
    removed_columns := []
    type_changes := []
    severity := DriftSeverity.info
    message := "No expected schema provided - recorded current schema" }

/-- The report built by the baseline-present branch of
`ColumnDriftDetector.validate` (lines 70-93 of the source). -/
def baseline_report (current_schema expected : List (String × String))
    (table_name : String) : DriftReport :=
  let new_columns := detect_new_columns current_schema expected
  let removed_columns := detect_removed_columns current_schema expected
  let type_changes := detect_type_changes current_schema expected
  let has_drift := !new_columns.isEmpty || !removed_columns.isEmpty ||
    !type_changes.isEmpty
  let severity := determine_severity new_columns removed_columns type_changes
  let message := build_message new_columns removed_columns type_changes
  { table_name := table_name
    has_drift := has_drift
    new_columns := new_columns
    removed_columns := removed_columns
    type_changes := type_changes
    severity := severity
    message := message }

/-- `ColumnDriftDetector.validate`.  `strict_mode` is the constructor flag;
the DataFrame is the list of (column name, raw dtype string) pairs; raising
`ValidationError` is modelled by `Except.error`. -/
def validate (strict_mode : Bool) (df : List (String × String))
    (table_name : String) (expected_schema : Option (List (String × String))) :
    Except ValidationError DriftReport :=
  let current_schema := extract_schema df
  match expected_schema with
  | none => Except.ok (no_baseline_report current_schema table_name)
  | some expected =>
    let report := baseline_report current_schema expected table_name
    if strict_mode && report.has_drift then
      Except.error
        { message := "Schema drift detected for " ++ table_name ++
            " in strict mode"
          drift_report := some report }
    else Except.ok report

/-- The report `validate` computes internally (before the strict-mode gate),
for either branch. -/
def computed_report (df : List (String × String)) (table_name : String)
    (expected_schema : Option (List (String × String))) : DriftReport :=
  match expected_schema with
  | none => no_baseline_report (extract_schema df) table_name
  | some expected => baseline_report (extract_schema df) expected table_name

/-- The drift-flag invariant stated by the spec (§3): the `has_drift` flag
equals "`new_columns` non-empty OR `removed_columns` non-empty OR
`type_changes` non-empty", as a boolean check on a report.  This follows the
spec's words, to be compared with the reports `validate` actually builds. -/
def specDriftFlagInvariant (r : DriftReport) : Bool :=
  r.has_drift ==
    (!r.new_columns.isEmpty || !r.removed_columns.isEmpty || !r.type_changes.isEmpty)

/-- Decidable equality on `Except`, so concrete runs of `validate` can be
checked by `decide`. -/
instance {ε α : Type} [DecidableEq ε] [DecidableEq α] : DecidableEq (Except ε α) :=
  fun a b =>
  match a, b with
  | Except.error x, Except.error y => decidable_of_iff (x = y) (by simp)
  | Except.error _, Except.ok _ => isFalse (by simp)
  | Except.ok _, Except.error _ => isFalse (by simp)
  | Except.ok x, Except.ok y => decidable_of_iff (x = y) (by simp)

/-- The concrete report produced by `validate false [("a", "int64")] "t"
(some [("a", "integer"), ("b", "text")])`, used to instantiate witnesses. -/
def c2Report : DriftReport :=
  { table_name := "t"
    has_drift := true
    new_columns := []
    removed_columns := ["b"]
    type_changes := []
    severity := DriftSeverity.critical
    message := "1 column(s) removed" }

/-- The concrete report produced by `validate false [("a", "int64")] "t"
(some [("b", "text")])`, used to instantiate witnesses. -/
def c9Report : DriftReport :=
  { table_name := "t"
    has_drift := true
    new_columns := ["a"]
    removed_columns := ["b"]
    type_changes := []
    severity := DriftSeverity.critical
    message := "1 new column(s) added; 1 column(s) removed" }

/-! ### Helper lemmas about the embedded operations -/

/-- `List.find?` on a cons, phrased with `if`. -/
theorem find?_cons_ite {α : Type} (p : α → Bool) (a : α) (l : List α) :
    List.find? p (a :: l) = if p a then some a else List.find? p l := by
  by_cases h : p a <;> simp [h]

/-- Sorting does not change membership. -/
theorem mem_sortStrings {x : String} {l : List String} :
    x ∈ sortStrings l ↔ x ∈ l :=
  (List.perm_insertionSort _ l).mem_iff

/-- The output of `sortStrings` is sorted by `≤`. -/
theorem sorted_sortStrings (l : List String) :
    List.Sorted (fun a b : String => a ≤ b) (sortStrings l) :=
  List.sorted_insertionSort _ l

/-- Sorting does not change length. -/
theorem length_sortStrings (l : List String) :
    (sortStrings l).length = l.length :=
  (List.perm_insertionSort _ l).length_eq

/-- Membership in the sorted set difference. -/
theorem mem_setDiffSorted {x : String} {as bs : List String} :
    x ∈ setDiffSorted as bs ↔ x ∈ as ∧ x ∉ bs := by
  simp [setDiffSorted, mem_sortStrings, List.mem_filter, List.mem_dedup]

/-- The no-baseline branch of `validate`, as an equation. -/
theorem validate_none (strict : Bool) (df : List (String × String)) (tn : String) :
    validate strict df tn none =
      Except.ok (no_baseline_report (extract_schema df) tn) := rfl

/-- The baseline-present branch of `validate`, as an equation. -/
theorem validate_some (strict : Bool) (df e : List (String × String)) (tn : String) :
    validate strict df tn (some e) =
      if strict && (baseline_report (extract_schema df) e tn).has_drift then
        Except.error
          { message := "Schema drift detected for " ++ tn ++ " in strict mode"
            drift_report := some (baseline_report (extract_schema df) e tn) }
      else Except.ok (baseline_report (extract_schema df) e tn) := rfl

/-- A report returned (not raised) by `validate` with a baseline is the
baseline report of the extracted schema. -/
theorem validate_ok_inversion {strict : Bool} {df : List (String × String)}
    {tn : String} {e : List (String × String)} {r : DriftReport}
    (h : validate strict df tn (some e) = Except.ok r) :
    r = baseline_report (extract_schema df) e tn := by
  rw [validate_some] at h
  by_cases hs : strict && (baseline_report (extract_schema df) e tn).has_drift
  · rw [if_pos hs] at h
    exact absurd h (by simp)
  · rw [if_neg hs] at h
    exact (Except.ok.inj h).symm

/-- The field equations of `no_baseline_report`. -/
theorem no_baseline_report_fields (c : List (String × String)) (tn : String) :
    (no_baseline_report c tn).table_name = tn ∧
    (no_baseline_report c tn).has_drift = false ∧
    (no_baseline_report c tn).new_columns = c.map Prod.fst ∧
    (no_baseline_report c tn).removed_columns = [] ∧
    (no_baseline_report c tn).type_changes = [] ∧
    (no_baseline_report c tn).severity = DriftSeverity.info :=
  ⟨rfl, rfl, rfl, rfl, rfl, rfl⟩

/-- The field equations of `baseline_report`. -/
theorem baseline_report_fields (c e : List (String × String)) (tn : String) :
    (baseline_report c e tn).table_name = tn ∧
    (baseline_report c e tn).new_columns = detect_new_columns c e ∧
    (baseline_report c e tn).removed_columns = detect_removed_columns c e ∧
    (baseline_report c e tn).type_changes = detect_type_changes c e ∧
    (baseline_report c e tn).has_drift =
      (!(detect_new_columns c e).isEmpty || !(detect_removed_columns c e).isEmpty ||
        !(detect_type_changes c e).isEmpty) ∧
    (baseline_report c e tn).severity =
      determine_severity (detect_new_columns c e) (detect_removed_columns c e)
        (detect_type_changes c e) :=
  ⟨rfl, rfl, rfl, rfl, rfl, rfl⟩

/-- Extracting the schema preserves the column names in order. -/
theorem extract_schema_keys (df : List (String × String)) :
    (extract_schema df).map Prod.fst = df.map Prod.fst := by
  simp only [extract_schema, List.map_map]
  rfl

/-- `lookup` misses when the key is not among the keys. -/
theorem lookup_eq_none_of_not_mem_keys {β : Type} {l : List (String × β)} {k : String}
    (hk : k ∉ l.map Prod.fst) : l.lookup k = none := by
  induction l with
  | nil => rfl
  | cons p rest ih =>
    obtain ⟨c, b⟩ := p
    simp only [List.map_cons, List.mem_cons, not_or] at hk
    have hne : (k == c) = false := beq_eq_false_iff_ne.mpr hk.1
    rw [List.lookup_cons, hne]
    exact ih hk.2

/-- Every entry of `detect_type_changes` comes from a column of `current`. -/
theorem detect_type_changes_keys (current expected : List (String × String)) :
    ∀ q ∈ detect_type_changes current expected, q.fst ∈ current.map Prod.fst := by
  induction current with
  | nil =>
    intro q hq
    simp [detect_type_changes] at hq
  | cons p rest ih =>
    obtain ⟨c, t⟩ := p
    intro q hq
    simp only [detect_type_changes] at hq
    split at hq
    · split at hq
      · rcases List.mem_cons.mp hq with h | h
        · subst h
          simp
        · exact List.mem_cons_of_mem _ (ih q h)
      · exact List.mem_cons_of_mem _ (ih q hq)
    · exact List.mem_cons_of_mem _ (ih q hq)

/-- `detect_type_changes` keys, membership form. -/
theorem mem_keys_detect_type_changes {current expected : List (String × String)}
    {col : String} (h : col ∈ (detect_type_changes current expected).map Prod.fst) :
    col ∈ current.map Prod.fst := by
  rcases List.mem_map.mp h with ⟨q, hq, hfst⟩
  subst hfst
  exact detect_type_changes_keys current expected q hq

/-- Extensional characterisation of `detect_type_changes` when the current
schema has unique column names: it maps exactly the common columns whose types
differ to the pair (expected type, current type). -/
theorem lookup_detect_type_changes (expected : List (String × String)) :
    ∀ current : List (String × String), (current.map Prod.fst).Nodup →
      ∀ col ot nt,
        (detect_type_changes current expected).lookup col = some (ot, nt) ↔
          (current.lookup col = some nt ∧ expected.lookup col = some ot ∧ ot ≠ nt) := by
  intro current
  induction current with
  | nil =>
    intro _ col ot nt
    simp [detect_type_changes]
  | cons p rest ih =>
    obtain ⟨c, t⟩ := p
    intro hnd col ot nt
    simp only [List.map_cons, List.nodup_cons] at hnd
    obtain ⟨hc, hrest⟩ := hnd
    by_cases hcol : col = c
    · subst hcol
      have hcur : ((col, t) :: rest).lookup col = some t := by
        rw [List.lookup_cons]
        simp
      have hnone : (detect_type_changes rest expected).lookup col = none := by
        apply lookup_eq_none_of_not_mem_keys
        intro hmem
        exact hc (mem_keys_detect_type_changes hmem)
      rcases hle : expected.lookup col with _ | e
      · simp only [detect_type_changes, hle, hcur, hnone]
        simp
      · simp only [detect_type_changes, hle, hcur]
        by_cases hne : e ≠ t
        · rw [if_pos hne, List.lookup_cons]
          simp only [beq_self_eq_true]
          constructor
          · intro hL
            have h1 : e = ot ∧ t = nt := by
              simpa [Prod.ext_iff] using hL
            obtain ⟨rfl, rfl⟩ := h1
            exact ⟨rfl, rfl, hne⟩
          · rintro ⟨h1, h2, _⟩
            have ht : t = nt := by simpa using h1
            have he : e = ot := by simpa using h2
            rw [ht, he]
        · rw [if_neg hne]
          have he : e = t := not_not.mp hne
          subst he
          rw [hnone]
          constructor
          · intro hL
            exact absurd hL (by simp)
          · rintro ⟨h1, h2, h3⟩
            have ht : e = nt := by simpa using h1
            have ho : e = ot := by simpa using h2
            exact absurd (ho ▸ ht ▸ rfl : ot = nt) h3
    · have hbe : (col == c) = false := beq_eq_false_iff_ne.mpr hcol
      have hcur : ((c, t) :: rest).lookup col = rest.lookup col := by
        rw [List.lookup_cons, hbe]
      rw [hcur]
      rcases hle : expected.lookup c with _ | e
      · simp only [detect_type_changes, hle]
        exact ih hrest col ot nt
      · simp only [detect_type_changes, hle]
        by_cases hne : e ≠ t
        · rw [if_pos hne, List.lookup_cons, hbe]
          exact ih hrest col ot nt
        · rw [if_neg hne]
          exact ih hrest col ot nt

/-! ### Claims -/

/-- C1 counterexample: the no-baseline run on a one-column batch returns a
report whose `has_drift` is `false` although `new_columns` is non-empty, so
the claimed invariant `has_drift == (new_columns non-empty OR removed_columns
non-empty OR type_changes non-empty)` fails on a report returned by
`validate` in the no-baseline case. -/
theorem C1_counterexample_no_baseline :
    (validate false [("a", "int64")] "t" none).map specDriftFlagInvariant =
      Except.ok false := by decide

/-- C1 (amended): for every report returned by `validate`, the drift-flag
invariant holds whenever an expected schema was supplied; in the no-baseline
case `has_drift` is always `false` (even though `new_columns` then lists every
column of the batch). -/
theorem C1_drift_flag_invariant (strict : Bool) (df : List (String × String))
    (tn : String) (es : Option (List (String × String))) (r : DriftReport)
    (h : validate strict df tn es = Except.ok r) :
    (es.isSome → specDriftFlagInvariant r = true) ∧
    (es = none → r.has_drift = false) := by
  cases es with
  | none =>
    rw [validate_none] at h
    have hr : r = no_baseline_report (extract_schema df) tn := (Except.ok.inj h).symm
    subst hr
    exact ⟨by simp, fun _ => rfl⟩
  | some e =>
    have hr := validate_ok_inversion h
    subst hr
    refine ⟨fun _ => ?_, by simp⟩
    have hb := (baseline_report_fields (extract_schema df) e tn).2.2.2.2.1
    simp only [specDriftFlagInvariant, beq_iff_eq]
    exact hb

/-- C1 witness: the amended invariant instantiated on a concrete baseline run
with one type change. -/
theorem C1_witness :
    ((some [("a", "text")] : Option (List (String × String))).isSome →
      specDriftFlagInvariant
        { table_name := "t", has_drift := true, new_columns := [],
          removed_columns := [], type_changes := [("a", ("text", "integer"))],
          severity := DriftSeverity.critical,
          message := "1 type change(s) detected" } = true) ∧
    ((some [("a", "text")] : Option (List (String × String))) = none →
      DriftReport.has_drift
        { table_name := "t", has_drift := true, new_columns := [],
          removed_columns := [], type_changes := [("a", ("text", "integer"))],
          severity := DriftSeverity.critical,
          message := "1 type change(s) detected" } = false) :=
  C1_drift_flag_invariant false [("a", "int64")] "t" (some [("a", "text")]) _ (by decide)

/-- C2 counterexample: a no-baseline run returns a report with non-empty
`new_columns`, empty `removed_columns` and `type_changes`, and severity Info,
where the claim (which covers the no-baseline case) demands Warning. -/
theorem C2_counterexample_no_baseline :
    (validate false [("a", "int64")] "u" none).map (fun r => r.new_columns) =
      Except.ok ["a"] ∧
    (validate false [("a", "int64")] "u" none).map (fun r => r.removed_columns) =
      Except.ok [] ∧
    (validate false [("a", "int64")] "u" none).map (fun r => r.type_changes) =
      Except.ok [] ∧
    (validate false [("a", "int64")] "u" none).map (fun r => r.severity) =
      Except.ok DriftSeverity.info := by decide

/-- C2 (amended): for every report returned by `validate`: in the
baseline-present case, severity is Critical if `removed_columns` or
`type_changes` is non-empty, else Warning if `new_columns` is non-empty, else
Info; in the no-baseline case severity is always Info.  No other severity
value is reachable. -/
theorem C2_severity_rule (strict : Bool) (df : List (String × String))
    (tn : String) (es : Option (List (String × String))) (r : DriftReport)
    (h : validate strict df tn es = Except.ok r) :
    r.severity =
      (if es.isSome then
        (if !r.removed_columns.isEmpty || !r.type_changes.isEmpty then
          DriftSeverity.critical
         else if !r.new_columns.isEmpty then DriftSeverity.warning
         else DriftSeverity.info)
       else DriftSeverity.info) := by
  cases es with
  | none =>
    rw [validate_none] at h
    have hr : r = no_baseline_report (extract_schema df) tn := (Except.ok.inj h).symm
    subst hr
    rfl
  | some e =>
    have hr := validate_ok_inversion h
    subst hr
    rfl

/-- C2 witness: the amended severity rule instantiated on a concrete run with
a removed column. -/
theorem C2_witness :
    c2Report.severity =
      (if (some [("a", "integer"), ("b", "text")] :
            Option (List (String × String))).isSome then
        (if !c2Report.removed_columns.isEmpty || !c2Report.type_changes.isEmpty then
          DriftSeverity.critical
         else if !c2Report.new_columns.isEmpty then DriftSeverity.warning
         else DriftSeverity.info)
       else DriftSeverity.info) :=
  C2_severity_rule false [("a", "int64")] "t"
    (some [("a", "integer"), ("b", "text")]) c2Report (by decide)

/-- C3 counterexample: on a batch whose columns arrive in the order `b`, `a`,
the no-baseline report's `new_columns` is `["b", "a"]`, the batch order, not
the lexicographically sorted `["a", "b"]` the claim demands. -/
theorem C3_counterexample_unsorted :
    (validate false [("b", "int64"), ("a", "int64")] "t" none).map
      (fun r => r.new_columns) = Except.ok ["b", "a"] ∧
    sortStrings ["b", "a"] = ["a", "b"] ∧
    (["b", "a"] : List String) ≠ ["a", "b"] := by decide

/-- C3 (amended): for every batch B and table name T, `validate B T none`
returns a report with `has_drift = false`, `new_columns` equal to the column
names of B in batch order (not sorted), empty `removed_columns` and
`type_changes`, severity Info, and the fixed no-baseline message. -/
theorem C3_no_baseline_report_shape (strict : Bool) (df : List (String × String))
    (tn : String) :
    validate strict df tn none = Except.ok
      { table_name := tn, has_drift := false, new_columns := df.map Prod.fst,
        removed_columns := [], type_changes := [],
        severity := DriftSeverity.info,
        message := "No expected schema provided - recorded current schema" } := by
  rw [validate_none]
  simp only [no_baseline_report, extract_schema_keys]

/-- C4 counterexample: `"int8"` contains the substring `"int"` but is returned
verbatim (the code's patterns are the full keys such as `"int64"`), and
`"datetime"` normalizes to `"date"` rather than the claimed Timestamp, because
the key `"date"` is the first entry of the table that is a substring of
`"datetime"`. -/
theorem C4_counterexample_patterns :
    normalize_dtype "int8" = "int8" ∧ normalize_dtype "datetime" = "date" := by
  decide

/-- C4 (amended): for every dtype descriptor string, the normalizer returns
the canonical type of the first entry of the fixed table whose exact key —
`"int64"`, `"int32"`, `"float64"`, `"float32"`, `"object"`, `"string"`,
`"bool"`, `"datetime64[ns]"`, `"datetime64"`, `"date"`, in that order — is a
substring of the descriptor, and a descriptor matching no key is returned
verbatim; the function is total. -/
theorem C4_first_match_table (s : String) :
    normalize_dtype s =
      (if strContains s "int64" then "integer"
       else if strContains s "int32" then "integer"
       else if strContains s "float64" then "numeric"
       else if strContains s "float32" then "numeric"
       else if strContains s "object" then "text"
       else if strContains s "string" then "text"
       else if strContains s "bool" then "boolean"
       else if strContains s "datetime64[ns]" then "timestamp"
       else if strContains s "datetime64" then "timestamp"
       else if strContains s "date" then "date"
       else s) := by
  by_cases h1 : strContains s "int64"
  · simp [normalize_dtype, type_mapping, find?_cons_ite, h1]
  by_cases h2 : strContains s "int32"
  · simp [normalize_dtype, type_mapping, find?_cons_ite, h1, h2]
  by_cases h3 : strContains s "float64"
  · simp [normalize_dtype, type_mapping, find?_cons_ite, h1, h2, h3]
  by_cases h4 : strContains s "float32"
  · simp [normalize_dtype, type_mapping, find?_cons_ite, h1, h2, h3, h4]
  by_cases h5 : strContains s "object"
  · simp [normalize_dtype, type_mapping, find?_cons_ite, h1, h2, h3, h4, h5]
  by_cases h6 : strContains s "string"
  · simp [normalize_dtype, type_mapping, find?_cons_ite, h1, h2, h3, h4, h5, h6]
  by_cases h7 : strContains s "bool"
  · simp [normalize_dtype, type_mapping, find?_cons_ite, h1, h2, h3, h4, h5, h6, h7]
  by_cases h8 : strContains s "datetime64[ns]"
  · simp [normalize_dtype, type_mapping, find?_cons_ite, h1, h2, h3, h4, h5, h6, h7, h8]
  by_cases h9 : strContains s "datetime64"
  · simp [normalize_dtype, type_mapping, find?_cons_ite, h1, h2, h3, h4, h5, h6, h7,
      h8, h9]
  by_cases h10 : strContains s "date"
  · simp [normalize_dtype, type_mapping, find?_cons_ite, h1, h2, h3, h4, h5, h6, h7,
      h8, h9, h10]
  simp [normalize_dtype, type_mapping, find?_cons_ite, List.find?_nil, h1, h2, h3,
    h4, h5, h6, h7, h8, h9, h10]

/-- C5: `validate` fails exactly when strict mode is on and the computed
report's `has_drift` is true; the error then carries the full computed report,
and in every other case `validate` returns the computed report and raises
nothing. -/
theorem C5_strict_gate (strict : Bool) (df : List (String × String))
    (tn : String) (es : Option (List (String × String))) :
    validate strict df tn es =
      (if strict && (computed_report df tn es).has_drift then
        Except.error
          { message := "Schema drift detected for " ++ tn ++ " in strict mode"
            drift_report := some (computed_report df tn es) }
       else Except.ok (computed_report df tn es)) := by
  cases es with
  | none =>
    have h : (computed_report df tn none).has_drift = false := rfl
    rw [validate_none, h, Bool.and_false]
    simp [computed_report]
  | some e => rfl

/-- C6: in the baseline-present case, `new_columns` is the lexicographically
sorted difference current-minus-expected, `removed_columns` the sorted
difference expected-minus-current, and `type_changes` maps exactly the common
columns whose current type differs from the expected type to the pair
(expected type, current type). -/
theorem C6_baseline_diffs (current expected : List (String × String)) (tn : String)
    (hc : (current.map Prod.fst).Nodup) :
    (List.Sorted (fun a b : String => a ≤ b)
        (baseline_report current expected tn).new_columns ∧
      ∀ x, x ∈ (baseline_report current expected tn).new_columns ↔
        (x ∈ current.map Prod.fst ∧ x ∉ expected.map Prod.fst)) ∧
    (List.Sorted (fun a b : String => a ≤ b)
        (baseline_report current expected tn).removed_columns ∧
      ∀ x, x ∈ (baseline_report current expected tn).removed_columns ↔
        (x ∈ expected.map Prod.fst ∧ x ∉ current.map Prod.fst)) ∧
    (∀ col ot nt,
      (baseline_report current expected tn).type_changes.lookup col =
          some (ot, nt) ↔
        (current.lookup col = some nt ∧ expected.lookup col = some ot ∧
          ot ≠ nt)) := by
  refine ⟨⟨?_, fun x => ?_⟩, ⟨?_, fun x => ?_⟩, ?_⟩
  · exact sorted_sortStrings _
  · exact mem_setDiffSorted
  · exact sorted_sortStrings _
  · exact mem_setDiffSorted
  · exact lookup_detect_type_changes expected current hc

/-- C6 witness: the baseline diff characterisation instantiated on the spec's
Scenario 1 schemas. -/
theorem C6_witness :
    ((([("a", "integer"), ("c", "numeric")] :
        List (String × String)).map Prod.fst).Nodup) ∧
    ((List.Sorted (fun a b : String => a ≤ b)
        (baseline_report [("a", "integer"), ("c", "numeric")]
          [("a", "integer"), ("b", "text")] "t").new_columns ∧
      ∀ x, x ∈ (baseline_report [("a", "integer"), ("c", "numeric")]
          [("a", "integer"), ("b", "text")] "t").new_columns ↔
        (x ∈ ([("a", "integer"), ("c", "numeric")] :
            List (String × String)).map Prod.fst ∧
          x ∉ ([("a", "integer"), ("b", "text")] :
            List (String × String)).map Prod.fst)) ∧
    (List.Sorted (fun a b : String => a ≤ b)
        (baseline_report [("a", "integer"), ("c", "numeric")]
          [("a", "integer"), ("b", "text")] "t").removed_columns ∧
      ∀ x, x ∈ (baseline_report [("a", "integer"), ("c", "numeric")]
          [("a", "integer"), ("b", "text")] "t").removed_columns ↔
        (x ∈ ([("a", "integer"), ("b", "text")] :
            List (String × String)).map Prod.fst ∧
          x ∉ ([("a", "integer"), ("c", "numeric")] :
            List (String × String)).map Prod.fst)) ∧
    (∀ col ot nt,
      (baseline_report [("a", "integer"), ("c", "numeric")]
          [("a", "integer"), ("b", "text")] "t").type_changes.lookup col =
          some (ot, nt) ↔
        (([("a", "integer"), ("c", "numeric")] :
            List (String × String)).lookup col = some nt ∧
          ([("a", "integer"), ("b", "text")] :
            List (String × String)).lookup col = some ot ∧ ot ≠ nt))) :=
  ⟨by decide,
    C6_baseline_diffs [("a", "integer"), ("c", "numeric")]
      [("a", "integer"), ("b", "text")] "t" (by decide)⟩

/-- C7: validating a batch with zero columns against a non-empty baseline with
unique column names reports exactly the baseline columns as removed (sorted,
with the baseline's cardinality), no new columns, no type changes, and
severity Critical. -/
theorem C7_empty_batch (expected : List (String × String)) (tn : String)
    (hne : expected ≠ []) (he : (expected.map Prod.fst).Nodup) :
    ∃ r, validate false [] tn (some expected) = Except.ok r ∧
      r.new_columns = [] ∧ r.type_changes = [] ∧
      r.removed_columns = sortStrings (expected.map Prod.fst) ∧
      (∀ x, x ∈ r.removed_columns ↔ x ∈ expected.map Prod.fst) ∧
      r.removed_columns.length = expected.length ∧
      r.severity = DriftSeverity.critical := by
  have hfil : (expected.map Prod.fst).filter
      (fun a => !List.contains ([] : List String) a) = expected.map Prod.fst := by
    simp
  have hrem : (baseline_report [] expected tn).removed_columns =
      sortStrings (expected.map Prod.fst) := by
    calc (baseline_report [] expected tn).removed_columns
        = sortStrings (((expected.map Prod.fst).filter
            (fun a => !List.contains ([] : List String) a)).dedup) := rfl
      _ = sortStrings ((expected.map Prod.fst).dedup) := by rw [hfil]
      _ = sortStrings (expected.map Prod.fst) := by rw [List.dedup_eq_self.mpr he]
  have hkeys : expected.map Prod.fst ≠ [] := by
    intro h0
    exact hne (List.map_eq_nil_iff.mp h0)
  have hsort_ne : sortStrings (expected.map Prod.fst) ≠ [] := by
    intro h0
    have hp := List.perm_insertionSort (fun a b : String => a ≤ b)
      (expected.map Prod.fst)
    rw [show sortStrings (expected.map Prod.fst) =
      List.insertionSort (fun a b : String => a ≤ b) (expected.map Prod.fst)
      from rfl] at h0
    rw [h0] at hp
    exact hkeys hp.symm.eq_nil
  have hemp : (sortStrings (expected.map Prod.fst)).isEmpty = false := by
    cases hs : sortStrings (expected.map Prod.fst) with
    | nil => exact absurd hs hsort_ne
    | cons a l => rfl
  refine ⟨baseline_report [] expected tn, rfl, rfl, rfl, hrem, fun x => ?_, ?_, ?_⟩
  · rw [hrem, mem_sortStrings]
  · rw [hrem, length_sortStrings, List.length_map]
  · have hsev : (baseline_report [] expected tn).severity =
        determine_severity (detect_new_columns [] expected)
          (detect_removed_columns [] expected)
          (detect_type_changes [] expected) := rfl
    have hremdet : detect_removed_columns [] expected =
        sortStrings (expected.map Prod.fst) := hrem
    rw [hsev, hremdet]
    simp [determine_severity, hemp]

/-- C7 witness: the empty-batch characterisation instantiated on a one-column
baseline. -/
theorem C7_witness :
    (([("a", "integer")] : List (String × String)) ≠ [] ∧
      (([("a", "integer")] : List (String × String)).map Prod.fst).Nodup) ∧
    (∃ r, validate false [] "t" (some [("a", "integer")]) = Except.ok r ∧
      r.new_columns = [] ∧ r.type_changes = [] ∧
      r.removed_columns =
        sortStrings (([("a", "integer")] : List (String × String)).map Prod.fst) ∧
      (∀ x, x ∈ r.removed_columns ↔
        x ∈ ([("a", "integer")] : List (String × String)).map Prod.fst) ∧
      r.removed_columns.length =
        ([("a", "integer")] : List (String × String)).length ∧
      r.severity = DriftSeverity.critical) :=
  ⟨⟨by decide, by decide⟩, C7_empty_batch [("a", "integer")] "t" (by decide) (by decide)⟩

/-- C8: a column is reported new when comparing current schema C against
expected schema E exactly when it is reported removed when comparing current
schema E against expected schema C. -/
theorem C8_new_removed_symmetry (c e : List (String × String)) (t1 t2 : String)
    (x : String) :
    x ∈ (baseline_report c e t1).new_columns ↔
      x ∈ (baseline_report e c t2).removed_columns := Iff.rfl

/-- C9: no column name appears in both `new_columns` and `removed_columns` of
a report returned by `validate`. -/
theorem C9_disjoint_new_removed (strict : Bool) (df : List (String × String))
    (tn : String) (es : Option (List (String × String))) (r : DriftReport)
    (h : validate strict df tn es = Except.ok r) (x : String) :
    ¬ (x ∈ r.new_columns ∧ x ∈ r.removed_columns) := by
  cases es with
  | none =>
    rw [validate_none] at h
    have hr : r = no_baseline_report (extract_schema df) tn := (Except.ok.inj h).symm
    subst hr
    rintro ⟨-, h2⟩
    simp [no_baseline_report] at h2
  | some e =>
    have hr := validate_ok_inversion h
    subst hr
    rintro ⟨h1, h2⟩
    have h1m : x ∈ (extract_schema df).map Prod.fst ∧ x ∉ e.map Prod.fst :=
      mem_setDiffSorted.mp h1
    have h2m : x ∈ e.map Prod.fst ∧ x ∉ (extract_schema df).map Prod.fst :=
      mem_setDiffSorted.mp h2
    exact h1m.2 h2m.1

/-- C9 witness: disjointness instantiated on a concrete run that has both a
new and a removed column. -/
theorem C9_witness :
    ¬ (("a" : String) ∈ c9Report.new_columns ∧
        ("a" : String) ∈ c9Report.removed_columns) :=
  C9_disjoint_new_removed false [("a", "int64")] "t" (some [("b", "text")])
    c9Report (by decide) "a"

/-- C10: with no expected schema, `validate` always returns a report and never
raises, even in strict mode and whatever the batch: the no-baseline branch
returns before the strict-mode gate. -/
theorem C10_no_baseline_never_raises (strict : Bool) (df : List (String × String))
    (tn : String) :
    ∃ r, validate strict df tn none = Except.ok r :=
  ⟨no_baseline_report (extract_schema df) tn, rfl⟩

end AutoETL
